import Mathlib

/-!
Shallow embedding of the ai-news-simulator ingestion/cache/enrichment pipeline
(src/rss_core.py and src/main.py), together with proofs of the specified
properties.  Timestamps are modelled as integers (seconds); the external
HTTP world and the external summarizer are passed in as explicit parameters.
-/

/-! ### Python string primitives used by the source -/

/-- Whitespace test matching the characters stripped by Python's str.strip
for the ASCII range (space, tab, LF, VT, FF, CR). -/
def isPyWs (c : Char) : Bool :=
  c.toNat == 32 || c.toNat == 9 || c.toNat == 10 || c.toNat == 13 ||
  c.toNat == 11 || c.toNat == 12

/-- Strip leading and trailing whitespace from a character list
(model of Python str.strip). -/
def stripList (l : List Char) : List Char :=
  ((l.dropWhile isPyWs).reverse.dropWhile isPyWs).reverse

/-- Model of Python str.strip. -/
def pyStrip (s : String) : String :=
  ⟨stripList s.data⟩

/-- Model of Python str.lower (ASCII fragment, per-character). -/
def pyLower (s : String) : String :=
  ⟨s.data.map Char.toLower⟩

/-- Model of the Python substring test (needle in haystack). -/
def containsSub (needle hay : String) : Bool :=
  hay.data.tails.any (fun t => needle.data.isPrefixOf t)

/-- Model of Python slicing s[:n]. -/
def strTake (n : Nat) (s : String) : String :=
  ⟨s.data.take n⟩

/-- Model of Python len(s). -/
def strLen (s : String) : Nat :=
  s.data.length

/-- Model of the Python expression a or b on strings (empty string is falsy). -/
def pyOrStr (a b : String) : String :=
  if a = "" then b else a

/-! ### Data model of src/rss_core.py -/

/-- One parsed RSS item element, after the per-field text extraction of the
source loop: title, link and image already defaulted to the empty string when
the element is missing, pubDate as the parsed timestamp (none when the
pubDate element is missing or its text fails to parse), description and the
namespaced content:encoded body defaulted to the empty string, and category
(none when the category element is missing). -/
structure RssEntry where
  title : String
  link : String
  img : String
  pubDate : Option Int
  description : String
  fullContent : String
  category : Option String
  deriving DecidableEq

/-- One fetched news item dictionary as built by the source. -/
structure NewsItem where
  title : String
  link : String
  img : String
  published : Int
  summary : String
  full_content : String
  category : String
  region : Option String
  source_url : String
  fetched_at : Int
  deriving DecidableEq

/-- The seven region feeds of fetch_tribune_news. -/
def tribuneRegionFeeds : List (String × String) :=
  [("Pakistan", "https://tribune.com.pk/feed/home"),
   ("Punjab", "https://tribune.com.pk/feed/punjab"),
   ("Sindh", "https://tribune.com.pk/feed/sindh"),
   ("Balochistan", "https://tribune.com.pk/feed/balochistan"),
   ("Khyber Pakhtunkhwa", "https://tribune.com.pk/feed/khyber-pakhtunkhwa"),
   ("Jammu & Kashmir", "https://tribune.com.pk/feed/jammu-kashmir"),
   ("Gilgit-Baltistan", "https://tribune.com.pk/feed/gilgit-baltistan")]

/-- The eight category feeds of fetch_news_by_category. -/
def categoryFeeds : List (String × String) :=
  [("Politics", "https://tribune.com.pk/feed/politics"),
   ("Technology", "https://tribune.com.pk/feed/technology"),
   ("Sports", "https://tribune.com.pk/feed/sports"),
   ("Movies", "https://tribune.com.pk/feed/movies"),
   ("Music", "https://tribune.com.pk/feed/music"),
   ("Health", "https://tribune.com.pk/feed/health"),
   ("Business", "https://tribune.com.pk/feed/business"),
   ("World", "https://tribune.com.pk/feed/world")]

/-- Dictionary lookup in the static feed table. -/
def lookupFeed (feeds : List (String × String)) (scope : String) : Option String :=
  (feeds.find? (fun p => p.1 == scope)).map (·.2)

/-- Publish-date resolution: the parsed date, or the current wall clock when
the date is missing or unparsable (source lines 53-59). -/
def resolvePubDate (now : Int) (e : RssEntry) : Int :=
  e.pubDate.getD now

/-- Normalisation of the query argument (source line 33:
query.lower().strip() if query else ""). -/
def queryNorm (query : String) : String :=
  if query = "" then "" else pyStrip (pyLower query)

/-- Keyword filter body (source lines 76-80): case-insensitive substring
test against title, description and full content. -/
def entryMatchesQuery (ql : String) (e : RssEntry) : Bool :=
  containsSub ql (pyLower e.title) || containsSub ql (pyLower e.description) ||
    containsSub ql (pyLower e.fullContent)

/-- Construction of the news_item dictionary (source lines 83-94). -/
def mkNewsItem (now : Int) (rssUrl : String) (regionTag : Option String)
    (defaultCat : String) (e : RssEntry) : NewsItem :=
  { title := e.title
    link := e.link
    img := e.img
    published := resolvePubDate now e
    summary := e.description
    full_content := e.fullContent
    category := e.category.getD defaultCat
    region := regionTag
    source_url := rssUrl
    fetched_at := now }

/-- Dedup fingerprint (source line 96): hash of the concatenation of the
title and the ISO representation of the publish date; the hash is modelled
as the (injective) identity on its input string. -/
def contentFingerprint (item : NewsItem) : String :=
  item.title ++ toString item.published

/-- The candidate loop of the source (lines 44-104): recency filter, keyword
filter, dedup against the per-call seen set, and the break once max_items
survivors are collected. -/
def fetchLoop (now cutoff : Int) (ql rssUrl : String) (regionTag : Option String)
    (defaultCat : String) (maxItems : Nat) :
    List RssEntry → List String → List NewsItem → List NewsItem
  | [], _, acc => acc
  | e :: rest, seen, acc =>
    if resolvePubDate now e < cutoff then
      fetchLoop now cutoff ql rssUrl regionTag defaultCat maxItems rest seen acc
    else if ql ≠ "" ∧ entryMatchesQuery ql e = false then
      fetchLoop now cutoff ql rssUrl regionTag defaultCat maxItems rest seen acc
    else
      let item := mkNewsItem now rssUrl regionTag defaultCat e
      let fp := contentFingerprint item
      if fp ∈ seen then
        fetchLoop now cutoff ql rssUrl regionTag defaultCat maxItems rest seen acc
      else
        let acc' := acc ++ [item]
        if maxItems ≤ acc'.length then acc'
        else fetchLoop now cutoff ql rssUrl regionTag defaultCat maxItems rest (fp :: seen) acc'

/-- The collected (pre-sort) list for one call: candidates capped at
2 * max_items, processed by the loop starting from an empty seen set. -/
def collectedCore (feeds : List (String × String)) (isRegion : Bool)
    (scope query : String) (daysBack : Int) (maxItems : Nat) (now : Int)
    (entries : List RssEntry) : List NewsItem :=
  match lookupFeed feeds scope with
  | none => []
  | some url =>
    fetchLoop now (now - daysBack * 86400) (queryNorm query) url
      (if isRegion then some scope else none)
      (if isRegion then "" else scope)
      maxItems (entries.take (maxItems * 2)) [] []

/-- Python's sorted(l, key=published, reverse=True): a stable descending
sort on the publish timestamp. -/
def pySortDesc (l : List NewsItem) : List NewsItem :=
  l.mergeSort (fun a b => decide (b.published ≤ a.published))

/-- Scope-validation failure (the ValueError raised at source lines 25-26
and 137-138). -/
inductive FetchError where
  | unknownScope (scope : String)
  deriving DecidableEq

/-- Outcome of the single HTTP GET plus XML parse: the three caught
degradation classes (requests.RequestException including non-2xx statuses
raised by raise_for_status, ElementTree.ParseError, and the generic
Exception catch-all), or a successful parse yielding the item elements. -/
inductive HttpOutcome where
  | networkError
  | httpStatusError
  | xmlParseError
  | otherError
  | ok (entries : List RssEntry)
  deriving DecidableEq

/-- Shared body of fetch_tribune_news and fetch_news_by_category: validate
the scope against the feed table, then either degrade to an empty list or
run the candidate loop and the final descending sort. -/
def fetchCore (feeds : List (String × String)) (isRegion : Bool)
    (scope query : String) (daysBack : Int) (maxItems : Nat) (now : Int)
    (outcome : HttpOutcome) : Except FetchError (List NewsItem) :=
  match lookupFeed feeds scope with
  | none => .error (.unknownScope scope)
  | some _ =>
    match outcome with
    | .ok es =>
      .ok (pySortDesc (collectedCore feeds isRegion scope query daysBack maxItems now es))
    | _ => .ok []

/-- Model of fetch_tribune_news (src/rss_core.py lines 10-118). -/
def fetch_tribune_news (region query : String) (daysBack : Int) (maxItems : Nat)
    (now : Int) (outcome : HttpOutcome) : Except FetchError (List NewsItem) :=
  fetchCore tribuneRegionFeeds true region query daysBack maxItems now outcome

/-- Model of fetch_news_by_category (src/rss_core.py lines 121-230). -/
def fetch_news_by_category (category query : String) (daysBack : Int) (maxItems : Nat)
    (now : Int) (outcome : HttpOutcome) : Except FetchError (List NewsItem) :=
  fetchCore categoryFeeds false category query daysBack maxItems now outcome

/-! ### Data model of src/main.py -/

/-- Process-wide cache TTL, in seconds (src/main.py line 31). -/
def CACHE_TTL : Int := 1800

/-- Model of is_cache_valid (src/main.py lines 38-39), with the wall clock
passed explicitly. -/
def is_cache_valid (now timestamp : Int) : Bool :=
  decide (now - timestamp < CACHE_TTL)

/-- Model of get_cache_key (src/main.py lines 35-36). -/
def get_cache_key (region query : String) (daysBack : Int) : String :=
  region ++ "_" ++ query ++ "_" ++ toString daysBack

/-- One NewsDetail record (src/main.py lines 50-55 and 148-156). -/
structure NewsDetail where
  title : String
  link : String
  brief_summary : String
  img : String
  published : Int
  deriving DecidableEq

/-- One cache namespace: an association from keys to (value, storedAt)
pairs, modelling a Python dict. -/
def CacheMap (α : Type) : Type := List (String × α × Int)

instance {α : Type} [DecidableEq α] : DecidableEq (CacheMap α) := by
  unfold CacheMap; infer_instance

/-- Dict lookup. -/
def cacheLookup {α : Type} : CacheMap α → String → Option (α × Int)
  | [], _ => none
  | (k, v, t) :: rest, key => if k = key then some (v, t) else cacheLookup rest key

/-- Dict assignment (overwrite). -/
def cacheInsert {α : Type} (m : CacheMap α) (key : String) (v : α) (t : Int) :
    CacheMap α :=
  (key, v, t) :: m.filter (fun p => !(p.1 == key))

/-- The two module-level caches of src/main.py (lines 32-33). -/
structure Caches where
  rawCache : CacheMap (List NewsItem)
  detailsCache : CacheMap (List NewsDetail)
  deriving DecidableEq

/-- External world for one enrichment run: the wall clock, the list
fetch_top_items would return if invoked, and the per-item summarizer
outcome (none models a raised exception, as surfaced by asyncio.gather
with return_exceptions=True). -/
structure EnrichEnv where
  now : Int
  fetchResult : List NewsItem
  summOut : Nat → Option String

/-- Per-item summary assembly (src/main.py lines 143-156): on summarizer
failure fall back to the first 300 characters of the item's own content,
then append an ellipsis only when the summary exceeds 300 characters. -/
def buildDetail (item : NewsItem) (outcome : Option String) : NewsDetail :=
  let summary : String :=
    match outcome with
    | some s => s
    | none => strTake 300 (pyOrStr item.full_content item.summary)
  let brief := if 300 < strLen summary then strTake 300 summary ++ "..." else summary
  { title := item.title
    link := item.link
    brief_summary := brief
    img := item.img
    published := item.published }

/-- The enumerate loop over raw items (src/main.py line 142), pairing the
i-th raw item with the i-th summarizer outcome. -/
def buildDetails (out : Nat → Option String) : Nat → List NewsItem → List NewsDetail
  | _, [] => []
  | i, it :: rest => buildDetail it (out i) :: buildDetails out (i + 1) rest

/-- Raw-fetch-and-store step of generate_top_10_details (src/main.py lines
114-116 and 120-122); the third component counts Ingestor invocations. -/
def fetchAndStoreRaw (env : EnrichEnv) (key : String) (st : Caches) :
    List NewsItem × Caches × Nat :=
  (env.fetchResult,
   { st with rawCache := cacheInsert st.rawCache key env.fetchResult env.now }, 1)

/-- Raw-items acquisition of generate_top_10_details (src/main.py lines
113-124): fetch on a miss, refetch on an expired entry, else reuse. -/
def obtainRawItems (env : EnrichEnv) (key : String) (st : Caches) :
    List NewsItem × Caches × Nat :=
  match cacheLookup st.rawCache key with
  | none => fetchAndStoreRaw env key st
  | some (items, ts) =>
    if is_cache_valid env.now ts then (items, st, 0) else fetchAndStoreRaw env key st

/-- Model of generate_top_10_details (src/main.py lines 108-158).  Returns
the updated caches, the number of summarizer invocations, and the number of
Ingestor invocations. -/
def generate_top_10_details (env : EnrichEnv) (key : String) (st : Caches) :
    Caches × Nat × Nat :=
  if (cacheLookup st.detailsCache key).isSome then (st, 0, 0)
  else
    let r := obtainRawItems env key st
    if r.1 = [] then (r.2.1, 0, r.2.2)
    else
      ({ r.2.1 with
          detailsCache :=
            cacheInsert r.2.1.detailsCache key (buildDetails env.summOut 0 r.1) env.now },
       r.1.length, r.2.2)

/-- Boundary-visible failure of the detail view: the 404 raised at
src/main.py line 247, instructing the caller to call /top_3_titles first. -/
inductive ApiError where
  | noPriorFetch (region : String)
  deriving DecidableEq

/-- Continuation of see_more_details past the fresh-details fast path
(src/main.py lines 233-247). -/
def smdAfterDetails (env : EnrichEnv) (region key : String) (st : Caches) :
    Except ApiError (List NewsDetail × Nat) × Caches × Nat :=
  match cacheLookup st.rawCache key with
  | some (_, ts) =>
    if is_cache_valid env.now ts then
      let r := generate_top_10_details env key st
      match cacheLookup r.1.detailsCache key with
      | some (dl, _) => (.ok (dl, dl.length), r.1, r.2.2)
      | none => (.error (.noPriorFetch region), r.1, r.2.2)
    else (.error (.noPriorFetch region), st, 0)
  | none => (.error (.noPriorFetch region), st, 0)

/-- Model of the see_more_details endpoint body (src/main.py lines 212-247).
Returns the response (the detail list and total_available, or the
no-prior-fetch failure), the updated caches, and the number of Ingestor
invocations. -/
def see_more_details (env : EnrichEnv) (region query : String) (daysBack : Int)
    (st : Caches) : Except ApiError (List NewsDetail × Nat) × Caches × Nat :=
  let key := get_cache_key region query daysBack
  match cacheLookup st.detailsCache key with
  | some (dl, ts) =>
    if is_cache_valid env.now ts then (.ok (dl, dl.length), st, 0)
    else smdAfterDetails env region key st
  | none => smdAfterDetails env region key st

/-- Default NewsItem used for positional access in statements. -/
def dummyItem : NewsItem :=
  ⟨"", "", "", 0, "", "", "", none, "", 0⟩

/-- Default NewsDetail used for positional access in statements. -/
def dummyDetail : NewsDetail :=
  ⟨"", "", "", "", 0⟩

/-! ### Cache lemmas -/

theorem cacheLookup_insert_self {α : Type} (m : CacheMap α) (k : String) (v : α) (t : Int) :
    cacheLookup (cacheInsert m k v t) k = some (v, t) := by
  simp [cacheInsert, cacheLookup]

theorem obtainRawItems_detailsCache (env : EnrichEnv) (key : String) (st : Caches) :
    (obtainRawItems env key st).2.1.detailsCache = st.detailsCache := by
  unfold obtainRawItems fetchAndStoreRaw
  cases cacheLookup st.rawCache key with
  | none => rfl
  | some p =>
    obtain ⟨items, ts⟩ := p
    dsimp only
    split <;> rfl

theorem obtainRawItems_fresh (env : EnrichEnv) (key : String) (st : Caches) :
    ∃ ts : Int,
      cacheLookup (obtainRawItems env key st).2.1.rawCache key
        = some ((obtainRawItems env key st).1, ts) ∧
      is_cache_valid env.now ts = true := by
  unfold obtainRawItems fetchAndStoreRaw
  cases h : cacheLookup st.rawCache key with
  | none =>
    refine ⟨env.now, ?_, ?_⟩
    · simpa using cacheLookup_insert_self st.rawCache key env.fetchResult env.now
    · simp [is_cache_valid, CACHE_TTL]
  | some p =>
    obtain ⟨items, ts⟩ := p
    dsimp only
    by_cases hv : is_cache_valid env.now ts = true
    · refine ⟨ts, ?_, hv⟩
      simp [hv, h]
    · rw [if_neg (by simp [hv])]
      refine ⟨env.now, ?_, ?_⟩
      · simpa using cacheLookup_insert_self st.rawCache key env.fetchResult env.now
      · simp [is_cache_valid, CACHE_TTL]

/-! ### Detail-assembly lemmas -/

theorem buildDetails_length (out : Nat → Option String) :
    ∀ (l : List NewsItem) (i : Nat), (buildDetails out i l).length = l.length := by
  intro l
  induction l with
  | nil => intro i; rfl
  | cons a t ih => intro i; simp [buildDetails, ih]

theorem buildDetails_getD (out : Nat → Option String) :
    ∀ (l : List NewsItem) (i j : Nat), j < l.length →
      (buildDetails out i l).getD j dummyDetail
        = buildDetail (l.getD j dummyItem) (out (i + j)) := by
  intro l
  induction l with
  | nil => intro i j h; simp at h
  | cons a t ih =>
    intro i j h
    cases j with
    | zero => simp [buildDetails]
    | succ j' =>
      have h' : j' < t.length := by simpa using h
      have := ih (i + 1) j' h'
      simpa [buildDetails, Nat.add_assoc, Nat.add_comm 1 j'] using this

theorem strLen_strTake (n : Nat) (s : String) : strLen (strTake n s) ≤ n := by
  simp [strLen, strTake]

theorem obtainRawItems_of_fresh (env : EnrichEnv) (key : String) (st : Caches)
    (items : List NewsItem) (ts : Int)
    (h : cacheLookup st.rawCache key = some (items, ts))
    (hv : is_cache_valid env.now ts = true) :
    obtainRawItems env key st = (items, st, 0) := by
  unfold obtainRawItems
  rw [h]
  simp [hv]

/-! ### Claim C8: cache TTL boundary -/

/-- C8: a cache entry stored at time t0 is fresh for a lookup at t0 + 1799
seconds and stale at t0 + 1801 seconds; validity holds exactly when
now - storedAt < 1800 seconds, with the TTL a single process-wide constant
equal to 1800. -/
theorem cache_ttl_boundary (t0 : Int) :
    is_cache_valid (t0 + 1799) t0 = true ∧
    is_cache_valid (t0 + 1801) t0 = false ∧
    (∀ now : Int, is_cache_valid now t0 = true ↔ now - t0 < CACHE_TTL) ∧
    CACHE_TTL = 1800 := by
  refine ⟨?_, ?_, fun now => ?_, rfl⟩
  · simp [is_cache_valid, CACHE_TTL]
  · simp [is_cache_valid, CACHE_TTL]
  · simp [is_cache_valid]

/-! ### Claim C3: enrichment idempotence -/

/-- C3: running generate_top_10_details twice in succession for the same key
(the second call under the same wall clock, with no intervening
invalidation) performs the summarizer fan-out at most in the first call: the
second call makes zero summarizer calls, zero Ingestor calls, and leaves
both cache namespaces exactly as the first call left them. -/
theorem generate_details_idempotent (env₁ env₂ : EnrichEnv) (key : String)
    (st : Caches) (hnow : env₂.now = env₁.now) :
    generate_top_10_details env₂ key (generate_top_10_details env₁ key st).1
      = ((generate_top_10_details env₁ key st).1, 0, 0) := by
  by_cases hd : (cacheLookup st.detailsCache key).isSome = true
  · simp [generate_top_10_details, hd]
  · have hd' : (cacheLookup st.detailsCache key).isSome = false := by
      simpa using hd
    obtain ⟨ts, hraw, hvalid⟩ := obtainRawItems_fresh env₁ key st
    by_cases hre : (obtainRawItems env₁ key st).1 = []
    · have hs₁ : (generate_top_10_details env₁ key st).1
          = (obtainRawItems env₁ key st).2.1 := by
        simp [generate_top_10_details, hd', hre]
      rw [hs₁]
      have hdet : cacheLookup (obtainRawItems env₁ key st).2.1.detailsCache key
          = cacheLookup st.detailsCache key :=
        congrArg (cacheLookup · key) (obtainRawItems_detailsCache env₁ key st)
      have hvalid₂ : is_cache_valid env₂.now ts = true := by rw [hnow]; exact hvalid
      rw [hre] at hraw
      have hobtain₂ : obtainRawItems env₂ key (obtainRawItems env₁ key st).2.1
          = ([], (obtainRawItems env₁ key st).2.1, 0) :=
        obtainRawItems_of_fresh env₂ key _ [] ts hraw hvalid₂
      simp [generate_top_10_details, hdet, hd', hobtain₂]
    · have hs₁ : (generate_top_10_details env₁ key st).1
          = { (obtainRawItems env₁ key st).2.1 with
              detailsCache :=
                cacheInsert (obtainRawItems env₁ key st).2.1.detailsCache key
                  (buildDetails env₁.summOut 0 (obtainRawItems env₁ key st).1)
                  env₁.now } := by
        simp [generate_top_10_details, hd', hre]
      rw [hs₁]
      simp [generate_top_10_details, cacheLookup_insert_self]

/-- C3 witness: a concrete two-call run (empty initial caches, a one-item
fetch result, all summaries succeeding) in which the second call is a
no-op. -/
theorem generate_details_idempotent_witness :
    (⟨5, [dummyItem], fun _ => some "s"⟩ : EnrichEnv).now
        = (⟨5, [dummyItem], fun _ => some "t"⟩ : EnrichEnv).now ∧
    generate_top_10_details ⟨5, [dummyItem], fun _ => some "s"⟩ "k"
        (generate_top_10_details ⟨5, [dummyItem], fun _ => some "t"⟩ "k" ⟨[], []⟩).1
      = ((generate_top_10_details ⟨5, [dummyItem], fun _ => some "t"⟩ "k" ⟨[], []⟩).1, 0, 0) :=
  ⟨rfl, generate_details_idempotent ⟨5, [dummyItem], fun _ => some "t"⟩
    ⟨5, [dummyItem], fun _ => some "s"⟩ "k" ⟨[], []⟩ rfl⟩

/-! ### Claim C7: detail view never fetches on its own -/

/-- C7: when neither a fresh details entry nor a fresh raw entry exists for
the key, see_more_details fails with the no-prior-fetch error (instructing
the caller to invoke the quick view first), performs zero Ingestor calls,
and leaves the caches untouched. -/
theorem detail_view_no_prior_fetch (env : EnrichEnv) (region query : String)
    (daysBack : Int) (st : Caches)
    (hd : ∀ v ts, cacheLookup st.detailsCache (get_cache_key region query daysBack)
      = some (v, ts) → is_cache_valid env.now ts = false)
    (hr : ∀ v ts, cacheLookup st.rawCache (get_cache_key region query daysBack)
      = some (v, ts) → is_cache_valid env.now ts = false) :
    see_more_details env region query daysBack st
      = (.error (.noPriorFetch region), st, 0) := by
  have hsmd : smdAfterDetails env region (get_cache_key region query daysBack) st
      = (.error (.noPriorFetch region), st, 0) := by
    unfold smdAfterDetails
    cases h : cacheLookup st.rawCache (get_cache_key region query daysBack) with
    | none => rfl
    | some p =>
      obtain ⟨v, ts⟩ := p
      simp [hr v ts h]
  rcases hdl : cacheLookup st.detailsCache (get_cache_key region query daysBack) with _ | ⟨v, ts⟩
  · simp [see_more_details, hdl, hsmd]
  · simp [see_more_details, hdl, hd v ts hdl, hsmd]

/-- C7 witness: with both caches empty the detail view fails with the
no-prior-fetch error and zero Ingestor calls. -/
theorem detail_view_no_prior_fetch_witness :
    see_more_details ⟨0, [], fun _ => none⟩ "Sindh" "" 7 ⟨[], []⟩
      = (.error (.noPriorFetch "Sindh"), ⟨[], []⟩, 0) :=
  detail_view_no_prior_fetch ⟨0, [], fun _ => none⟩ "Sindh" "" 7 ⟨[], []⟩
    (fun v ts h => by simp [cacheLookup] at h)
    (fun v ts h => by simp [cacheLookup] at h)

/-! ### Claim C2: partial summarization failure -/

/-- C2: when the summarizer fails for item i of a non-empty fresh raw list
but succeeds for all others, enrichment still stores one detail record per
raw item in the raw list's order, and item i's brief summary is exactly the
first 300 characters of that item's own full content or summary text. -/
theorem summary_failure_fallback (env : EnrichEnv) (key : String) (st : Caches)
    (raw : List NewsItem) (ts : Int) (i : Nat)
    (h1 : cacheLookup st.detailsCache key = none)
    (h2 : cacheLookup st.rawCache key = some (raw, ts))
    (h3 : is_cache_valid env.now ts = true)
    (h4 : raw ≠ [])
    (h5 : i < raw.length)
    (h6 : env.summOut i = none)
    (_h7 : ∀ j, j < raw.length → j ≠ i → env.summOut j ≠ none) :
    ∃ dl : List NewsDetail,
      cacheLookup (generate_top_10_details env key st).1.detailsCache key
        = some (dl, env.now) ∧
      dl.length = raw.length ∧
      (∀ j, j < raw.length →
        (dl.getD j dummyDetail).title = (raw.getD j dummyItem).title ∧
        (dl.getD j dummyDetail).link = (raw.getD j dummyItem).link ∧
        (dl.getD j dummyDetail).img = (raw.getD j dummyItem).img ∧
        (dl.getD j dummyDetail).published = (raw.getD j dummyItem).published) ∧
      (dl.getD i dummyDetail).brief_summary
        = strTake 300 (pyOrStr (raw.getD i dummyItem).full_content
            (raw.getD i dummyItem).summary) := by
  have hobt : obtainRawItems env key st = (raw, st, 0) :=
    obtainRawItems_of_fresh env key st raw ts h2 h3
  have hgen : (generate_top_10_details env key st).1
      = { st with
          detailsCache :=
            cacheInsert st.detailsCache key (buildDetails env.summOut 0 raw) env.now } := by
    simp [generate_top_10_details, h1, hobt, h4]
  refine ⟨buildDetails env.summOut 0 raw, ?_, buildDetails_length env.summOut raw 0, ?_, ?_⟩
  · rw [hgen]
    exact cacheLookup_insert_self st.detailsCache key _ env.now
  · intro j hj
    rw [buildDetails_getD env.summOut raw 0 j hj]
    cases env.summOut (0 + j) <;> simp [buildDetail]
  · rw [buildDetails_getD env.summOut raw 0 i h5]
    have h6' : env.summOut (0 + i) = none := by simpa using h6
    rw [h6']
    have hle : ¬ 300 < strLen (strTake 300 (pyOrStr (raw.getD i dummyItem).full_content
        (raw.getD i dummyItem).summary)) :=
      Nat.not_lt.mpr (strLen_strTake 300 _)
    simp only [buildDetail]
    rw [if_neg hle]

/-- C2 witness: a concrete two-item raw list whose first summarizer call
fails while the second succeeds. -/
theorem summary_failure_fallback_witness :
    ∃ dl : List NewsDetail,
      cacheLookup (generate_top_10_details
            ⟨0, [], fun j => if j = 0 then none else some "ok"⟩ "k"
            ⟨[("k", [dummyItem, dummyItem], 0)], []⟩).1.detailsCache "k"
        = some (dl, 0) ∧
      dl.length = [dummyItem, dummyItem].length ∧
      (∀ j, j < [dummyItem, dummyItem].length →
        (dl.getD j dummyDetail).title
            = ([dummyItem, dummyItem].getD j dummyItem).title ∧
        (dl.getD j dummyDetail).link
            = ([dummyItem, dummyItem].getD j dummyItem).link ∧
        (dl.getD j dummyDetail).img
            = ([dummyItem, dummyItem].getD j dummyItem).img ∧
        (dl.getD j dummyDetail).published
            = ([dummyItem, dummyItem].getD j dummyItem).published) ∧
      (dl.getD 0 dummyDetail).brief_summary
        = strTake 300 (pyOrStr ([dummyItem, dummyItem].getD 0 dummyItem).full_content
            ([dummyItem, dummyItem].getD 0 dummyItem).summary) :=
  summary_failure_fallback ⟨0, [], fun j => if j = 0 then none else some "ok"⟩ "k"
    ⟨[("k", [dummyItem, dummyItem], 0)], []⟩ [dummyItem, dummyItem] 0 0
    rfl (by simp [cacheLookup]) (by decide) (by simp) (by decide) rfl
    (by intro j _ hj; simp [hj])

/-! ### Ingestor basic lemmas -/

theorem fetchCore_ok (feeds : List (String × String)) (isRegion : Bool)
    (scope url query : String) (daysBack : Int) (maxItems : Nat) (now : Int)
    (es : List RssEntry) (h : lookupFeed feeds scope = some url) :
    fetchCore feeds isRegion scope query daysBack maxItems now (.ok es)
      = .ok (pySortDesc (collectedCore feeds isRegion scope query daysBack maxItems now es)) := by
  simp [fetchCore, h]

/-! ### Claim C6: degraded paths yield an empty list, never an exception -/

/-- C6: for every valid scope, a network failure, a non-2xx HTTP status, a
malformed XML body, or any other error inside the fetch degrades to an
empty list result for both Ingestor entry points; no error value escapes
the boundary. -/
theorem degraded_paths_empty (region url category curl query : String)
    (daysBack : Int) (maxItems : Nat) (now : Int)
    (hu : lookupFeed tribuneRegionFeeds region = some url)
    (hc : lookupFeed categoryFeeds category = some curl) :
    (fetch_tribune_news region query daysBack maxItems now .networkError = .ok [] ∧
     fetch_tribune_news region query daysBack maxItems now .httpStatusError = .ok [] ∧
     fetch_tribune_news region query daysBack maxItems now .xmlParseError = .ok [] ∧
     fetch_tribune_news region query daysBack maxItems now .otherError = .ok []) ∧
    (fetch_news_by_category category query daysBack maxItems now .networkError = .ok [] ∧
     fetch_news_by_category category query daysBack maxItems now .httpStatusError = .ok [] ∧
     fetch_news_by_category category query daysBack maxItems now .xmlParseError = .ok [] ∧
     fetch_news_by_category category query daysBack maxItems now .otherError = .ok []) := by
  refine ⟨⟨?_, ?_, ?_, ?_⟩, ?_, ?_, ?_, ?_⟩ <;>
    simp [fetch_tribune_news, fetch_news_by_category, fetchCore, hu, hc]

/-- C6 witness: the degraded paths for the Sindh region and the Sports
category. -/
theorem degraded_paths_empty_witness :
    (fetch_tribune_news "Sindh" "" 7 10 0 .networkError = .ok [] ∧
     fetch_tribune_news "Sindh" "" 7 10 0 .httpStatusError = .ok [] ∧
     fetch_tribune_news "Sindh" "" 7 10 0 .xmlParseError = .ok [] ∧
     fetch_tribune_news "Sindh" "" 7 10 0 .otherError = .ok []) ∧
    (fetch_news_by_category "Sports" "" 7 10 0 .networkError = .ok [] ∧
     fetch_news_by_category "Sports" "" 7 10 0 .httpStatusError = .ok [] ∧
     fetch_news_by_category "Sports" "" 7 10 0 .xmlParseError = .ok [] ∧
     fetch_news_by_category "Sports" "" 7 10 0 .otherError = .ok []) :=
  degraded_paths_empty "Sindh" "https://tribune.com.pk/feed/sindh"
    "Sports" "https://tribune.com.pk/feed/sports" "" 7 10 0 (by decide) (by decide)

/-! ### Claim C9: unknown scopes fail before any network interaction -/

/-- C9: for every scope outside the fixed table (7 regions, 8 categories),
the Ingestor fails with the unknown-scope error whatever the state of the
network (the result does not depend on the HTTP outcome, hence no network
call is consulted), and the tables have exactly 7 and 8 entries. -/
theorem unknown_scope_error (scope cat query : String) (daysBack : Int)
    (maxItems : Nat) (now : Int) (outcome₁ outcome₂ : HttpOutcome)
    (hu : lookupFeed tribuneRegionFeeds scope = none)
    (hc : lookupFeed categoryFeeds cat = none) :
    fetch_tribune_news scope query daysBack maxItems now outcome₁
        = .error (.unknownScope scope) ∧
    fetch_news_by_category cat query daysBack maxItems now outcome₂
        = .error (.unknownScope cat) ∧
    tribuneRegionFeeds.length = 7 ∧ categoryFeeds.length = 8 := by
  refine ⟨?_, ?_, rfl, rfl⟩ <;>
    simp [fetch_tribune_news, fetch_news_by_category, fetchCore, hu, hc]

/-- C9 witness: the scope "Atlantis" is rejected by both entry points, even
when the HTTP world would have answered successfully. -/
theorem unknown_scope_error_witness :
    fetch_tribune_news "Atlantis" "" 7 10 0 (.ok [])
        = .error (.unknownScope "Atlantis") ∧
    fetch_news_by_category "Atlantis" "" 7 10 0 .networkError
        = .error (.unknownScope "Atlantis") ∧
    tribuneRegionFeeds.length = 7 ∧ categoryFeeds.length = 8 :=
  unknown_scope_error "Atlantis" "Atlantis" "" 7 10 0 (.ok []) .networkError
    (by decide) (by decide)

/-! ### Loop invariants of the candidate loop -/

theorem fetchLoop_published_ge (now cutoff : Int) (ql rssUrl : String)
    (regionTag : Option String) (defaultCat : String) (maxItems : Nat) :
    ∀ (es : List RssEntry) (seen : List String) (acc : List NewsItem),
      (∀ a ∈ acc, cutoff ≤ a.published) →
      ∀ b ∈ fetchLoop now cutoff ql rssUrl regionTag defaultCat maxItems es seen acc,
        cutoff ≤ b.published := by
  intro es
  induction es with
  | nil =>
    intro seen acc hinv b hb
    exact hinv b (by simpa [fetchLoop] using hb)
  | cons e rest ih =>
    intro seen acc hinv b hb
    simp only [fetchLoop] at hb
    by_cases h1 : resolvePubDate now e < cutoff
    · rw [if_pos h1] at hb
      exact ih seen acc hinv b hb
    · rw [if_neg h1] at hb
      by_cases h2 : ql ≠ "" ∧ entryMatchesQuery ql e = false
      · rw [if_pos h2] at hb
        exact ih seen acc hinv b hb
      · rw [if_neg h2] at hb
        have hitem : cutoff ≤ (mkNewsItem now rssUrl regionTag defaultCat e).published := by
          simp only [mkNewsItem]
          omega
        have hinv' : ∀ a ∈ acc ++ [mkNewsItem now rssUrl regionTag defaultCat e],
            cutoff ≤ a.published := by
          intro a ha
          rcases List.mem_append.mp ha with h | h
          · exact hinv a h
          · rw [List.mem_singleton.mp h]
            exact hitem
        by_cases h3 : contentFingerprint (mkNewsItem now rssUrl regionTag defaultCat e) ∈ seen
        · rw [if_pos h3] at hb
          exact ih seen acc hinv b hb
        · rw [if_neg h3] at hb
          by_cases h4 : maxItems ≤ (acc ++ [mkNewsItem now rssUrl regionTag defaultCat e]).length
          · rw [if_pos h4] at hb
            exact hinv' b hb
          · rw [if_neg h4] at hb
            exact ih _ _ hinv' b hb

theorem fetchLoop_fingerprint_nodup (now cutoff : Int) (ql rssUrl : String)
    (regionTag : Option String) (defaultCat : String) (maxItems : Nat) :
    ∀ (es : List RssEntry) (seen : List String) (acc : List NewsItem),
      (acc.map contentFingerprint).Nodup →
      (∀ a ∈ acc, contentFingerprint a ∈ seen) →
      ((fetchLoop now cutoff ql rssUrl regionTag defaultCat maxItems es seen acc).map
        contentFingerprint).Nodup := by
  intro es
  induction es with
  | nil =>
    intro seen acc h1 _
    simpa [fetchLoop] using h1
  | cons e rest ih =>
    intro seen acc hnd hseen
    simp only [fetchLoop]
    by_cases h1 : resolvePubDate now e < cutoff
    · rw [if_pos h1]
      exact ih seen acc hnd hseen
    · rw [if_neg h1]
      by_cases h2 : ql ≠ "" ∧ entryMatchesQuery ql e = false
      · rw [if_pos h2]
        exact ih seen acc hnd hseen
      · rw [if_neg h2]
        by_cases h3 : contentFingerprint (mkNewsItem now rssUrl regionTag defaultCat e) ∈ seen
        · rw [if_pos h3]
          exact ih seen acc hnd hseen
        · rw [if_neg h3]
          have hnotin : contentFingerprint (mkNewsItem now rssUrl regionTag defaultCat e)
              ∉ acc.map contentFingerprint := by
            intro hmem
            rcases List.mem_map.mp hmem with ⟨a, ha, hfa⟩
            exact h3 (hfa ▸ hseen a ha)
          have hnd' : ((acc ++ [mkNewsItem now rssUrl regionTag defaultCat e]).map
              contentFingerprint).Nodup := by
            rw [List.map_append]
            simp [List.nodup_append, hnd, hnotin]
          have hseen' : ∀ a ∈ acc ++ [mkNewsItem now rssUrl regionTag defaultCat e],
              contentFingerprint a
                ∈ contentFingerprint (mkNewsItem now rssUrl regionTag defaultCat e) :: seen := by
            intro a ha
            rcases List.mem_append.mp ha with h | h
            · exact List.mem_cons_of_mem _ (hseen a h)
            · rw [List.mem_singleton.mp h]
              exact List.mem_cons_self _ _
          by_cases h4 : maxItems ≤ (acc ++ [mkNewsItem now rssUrl regionTag defaultCat e]).length
          · rw [if_pos h4]
            exact hnd'
          · rw [if_neg h4]
            exact ih _ _ hnd' hseen'

/-! ### Stable descending sort lemmas -/

theorem pySortDesc_le_trans (a b c : NewsItem)
    (h1 : decide (b.published ≤ a.published) = true)
    (h2 : decide (c.published ≤ b.published) = true) :
    decide (c.published ≤ a.published) = true := by
  simp only [decide_eq_true_eq] at *
  omega

theorem pySortDesc_le_total (a b : NewsItem) :
    (decide (b.published ≤ a.published) || decide (a.published ≤ b.published)) = true := by
  simp only [Bool.or_eq_true, decide_eq_true_eq]
  omega

theorem pySortDesc_pairwise (l : List NewsItem) :
    (pySortDesc l).Pairwise (fun a b => b.published ≤ a.published) := by
  have h := List.sorted_mergeSort pySortDesc_le_trans pySortDesc_le_total l
  exact h.imp (fun hab => by simpa using hab)

theorem pySortDesc_perm (l : List NewsItem) : List.Perm (pySortDesc l) l :=
  List.mergeSort_perm l _

theorem pySortDesc_stable_filter (l : List NewsItem) (t : Int) :
    (pySortDesc l).filter (fun x => x.published == t)
      = l.filter (fun x => x.published == t) := by
  have hall : ∀ a ∈ l.filter (fun x : NewsItem => x.published == t), a.published = t := by
    intro a ha
    simpa using (List.mem_filter.mp ha).2
  have hpw : (l.filter (fun x : NewsItem => x.published == t)).Pairwise
      (fun a b => decide (b.published ≤ a.published) = true) := by
    apply List.pairwise_of_forall_mem_list
    intro a ha b hb
    rw [hall a ha, hall b hb]
    simp
  have hsub : List.Sublist (l.filter (fun x : NewsItem => x.published == t)) (pySortDesc l) :=
    List.sublist_mergeSort pySortDesc_le_trans pySortDesc_le_total hpw
      (List.filter_sublist l)
  have hself : (l.filter (fun x : NewsItem => x.published == t)).filter
      (fun x : NewsItem => x.published == t)
        = l.filter (fun x : NewsItem => x.published == t) :=
    List.filter_eq_self.mpr (fun a ha => by simp [hall a ha])
  have hsub2 : List.Sublist (l.filter (fun x : NewsItem => x.published == t))
      ((pySortDesc l).filter (fun x : NewsItem => x.published == t)) := by
    have := hsub.filter (fun x : NewsItem => x.published == t)
    rwa [hself] at this
  have hperm : List.Perm ((pySortDesc l).filter (fun x : NewsItem => x.published == t))
      (l.filter (fun x : NewsItem => x.published == t)) :=
    (pySortDesc_perm l).filter _
  exact (hsub2.eq_of_length hperm.length_eq.symm).symm

/-! ### Counting lemmas for deduplicated lists -/

theorem filter_beq_length_le_one {α β : Type} [DecidableEq β] (f : α → β) :
    ∀ l : List α, (l.map f).Nodup → ∀ v : β,
      (l.filter (fun y => f y == v)).length ≤ 1 := by
  intro l
  induction l with
  | nil => intro _ v; simp
  | cons a tl ih =>
    intro hnd v
    rw [List.map_cons, List.nodup_cons] at hnd
    by_cases hv : f a = v
    · have hnil : tl.filter (fun y => f y == v) = [] := by
        rw [List.filter_eq_nil_iff]
        intro y hy hbeq
        exact hnd.1 (List.mem_map.mpr ⟨y, hy, by
          have : f y = v := by simpa using hbeq
          rw [this, hv]⟩)
      simp [List.filter_cons, hv, hnil]
    · have hfa : (f a == v) = false := by simpa using hv
      rw [List.filter_cons, hfa]
      exact ih hnd.2 v

theorem filter_fp_length_eq_one {α β : Type} [DecidableEq β] (f : α → β)
    (l : List α) (hnd : (l.map f).Nodup) (x : α) (hx : x ∈ l) :
    (l.filter (fun y => f y == f x)).length = 1 := by
  have hle := filter_beq_length_le_one f l hnd (f x)
  have hmem : x ∈ l.filter (fun y => f y == f x) :=
    List.mem_filter.mpr ⟨hx, by simp⟩
  have hpos : 0 < (l.filter (fun y => f y == f x)).length :=
    List.length_pos.mpr (List.ne_nil_of_mem hmem)
  omega

/-! ### Claim C1: descending stable sort of the fetched list -/

/-- C1: every list returned by the Ingestor (either entry point) is sorted
by publishedAt in non-increasing order, and items with equal publishedAt
appear exactly as in the collected candidate-encounter-order list (stable
ties). -/
theorem ingestor_sorted_stable (region url cat curl query : String) (daysBack : Int)
    (maxItems : Nat) (now : Int) (entries₁ entries₂ : List RssEntry)
    (l₁ l₂ : List NewsItem) (t₁ t₂ : Int)
    (hu : lookupFeed tribuneRegionFeeds region = some url)
    (hf₁ : fetch_tribune_news region query daysBack maxItems now (.ok entries₁) = .ok l₁)
    (hc : lookupFeed categoryFeeds cat = some curl)
    (hf₂ : fetch_news_by_category cat query daysBack maxItems now (.ok entries₂) = .ok l₂) :
    (l₁.Pairwise (fun a b => b.published ≤ a.published) ∧
     l₁.filter (fun x => x.published == t₁)
       = (collectedCore tribuneRegionFeeds true region query daysBack maxItems now
           entries₁).filter (fun x => x.published == t₁)) ∧
    (l₂.Pairwise (fun a b => b.published ≤ a.published) ∧
     l₂.filter (fun x => x.published == t₂)
       = (collectedCore categoryFeeds false cat query daysBack maxItems now
           entries₂).filter (fun x => x.published == t₂)) := by
  have e₁ : l₁ = pySortDesc
      (collectedCore tribuneRegionFeeds true region query daysBack maxItems now entries₁) := by
    have h := fetchCore_ok tribuneRegionFeeds true region url query daysBack maxItems now entries₁ hu
    rw [fetch_tribune_news, h] at hf₁
    exact (Except.ok.inj hf₁).symm
  have e₂ : l₂ = pySortDesc
      (collectedCore categoryFeeds false cat query daysBack maxItems now entries₂) := by
    have h := fetchCore_ok categoryFeeds false cat curl query daysBack maxItems now entries₂ hc
    rw [fetch_news_by_category, h] at hf₂
    exact (Except.ok.inj hf₂).symm
  rw [e₁, e₂]
  exact ⟨⟨pySortDesc_pairwise _, pySortDesc_stable_filter _ t₁⟩,
         ⟨pySortDesc_pairwise _, pySortDesc_stable_filter _ t₂⟩⟩

/-! ### Claim C4: recency cutoff and missing-date defaulting -/

theorem mem_collected_of_mem_fetch (feeds : List (String × String)) (isRegion : Bool)
    (scope url query : String) (daysBack : Int) (maxItems : Nat) (now : Int)
    (entries : List RssEntry) (l : List NewsItem) (item : NewsItem)
    (hu : lookupFeed feeds scope = some url)
    (hf : fetchCore feeds isRegion scope query daysBack maxItems now (.ok entries) = .ok l)
    (hm : item ∈ l) :
    item ∈ collectedCore feeds isRegion scope query daysBack maxItems now entries := by
  have h := fetchCore_ok feeds isRegion scope url query daysBack maxItems now entries hu
  rw [h] at hf
  have : l = pySortDesc (collectedCore feeds isRegion scope query daysBack maxItems now entries) :=
    (Except.ok.inj hf).symm
  rw [this] at hm
  simpa [pySortDesc, List.mem_mergeSort] using hm

theorem collected_published_ge (feeds : List (String × String)) (isRegion : Bool)
    (scope url query : String) (daysBack : Int) (maxItems : Nat) (now : Int)
    (entries : List RssEntry) (item : NewsItem)
    (hu : lookupFeed feeds scope = some url)
    (hm : item ∈ collectedCore feeds isRegion scope query daysBack maxItems now entries) :
    now - daysBack * 86400 ≤ item.published := by
  rw [collectedCore, hu] at hm
  exact fetchLoop_published_ge now (now - daysBack * 86400) (queryNorm query) url
    (if isRegion then some scope else none) (if isRegion then "" else scope) maxItems
    (entries.take (maxItems * 2)) [] [] (by simp) item hm

/-- C4: every item returned by either Ingestor entry point has
publishedAt at least now minus daysBack days (the cutoff computed once per
call), and an entry whose publish date is missing or unparsable resolves to
publishedAt = now and is never dropped by the recency filter. -/
theorem recency_cutoff (region url cat curl query : String) (daysBack : Int)
    (maxItems : Nat) (now : Int) (entries₁ entries₂ : List RssEntry)
    (l₁ l₂ : List NewsItem) (item₁ item₂ : NewsItem) (e : RssEntry)
    (hdays : 0 ≤ daysBack)
    (hu : lookupFeed tribuneRegionFeeds region = some url)
    (hf₁ : fetch_tribune_news region query daysBack maxItems now (.ok entries₁) = .ok l₁)
    (hm₁ : item₁ ∈ l₁)
    (hc : lookupFeed categoryFeeds cat = some curl)
    (hf₂ : fetch_news_by_category cat query daysBack maxItems now (.ok entries₂) = .ok l₂)
    (hm₂ : item₂ ∈ l₂)
    (he : e.pubDate = none) :
    now - daysBack * 86400 ≤ item₁.published ∧
    now - daysBack * 86400 ≤ item₂.published ∧
    resolvePubDate now e = now ∧
    ¬ resolvePubDate now e < now - daysBack * 86400 := by
  have hd : (0 : Int) ≤ daysBack * 86400 := mul_nonneg hdays (by norm_num)
  have hc₁ := mem_collected_of_mem_fetch tribuneRegionFeeds true region url query
    daysBack maxItems now entries₁ l₁ item₁ hu hf₁ hm₁
  have hc₂ := mem_collected_of_mem_fetch categoryFeeds false cat curl query
    daysBack maxItems now entries₂ l₂ item₂ hc hf₂ hm₂
  refine ⟨collected_published_ge _ _ _ _ _ _ _ _ _ _ hu hc₁,
          collected_published_ge _ _ _ _ _ _ _ _ _ _ hc hc₂, ?_, ?_⟩
  · simp [resolvePubDate, he]
  · simp only [resolvePubDate, he, Option.getD_none]
    omega

/-! ### Claim C5: per-call deduplication by content fingerprint -/

theorem collected_fingerprint_nodup (feeds : List (String × String)) (isRegion : Bool)
    (scope url query : String) (daysBack : Int) (maxItems : Nat) (now : Int)
    (entries : List RssEntry)
    (hu : lookupFeed feeds scope = some url) :
    ((collectedCore feeds isRegion scope query daysBack maxItems now entries).map
      contentFingerprint).Nodup := by
  rw [collectedCore, hu]
  exact fetchLoop_fingerprint_nodup now (now - daysBack * 86400) (queryNorm query) url
    (if isRegion then some scope else none) (if isRegion then "" else scope) maxItems
    (entries.take (maxItems * 2)) [] [] (by simp) (by simp)

theorem fetch_fingerprint_nodup (feeds : List (String × String)) (isRegion : Bool)
    (scope url query : String) (daysBack : Int) (maxItems : Nat) (now : Int)
    (entries : List RssEntry) (l : List NewsItem)
    (hu : lookupFeed feeds scope = some url)
    (hf : fetchCore feeds isRegion scope query daysBack maxItems now (.ok entries) = .ok l) :
    (l.map contentFingerprint).Nodup := by
  have h := fetchCore_ok feeds isRegion scope url query daysBack maxItems now entries hu
  rw [h] at hf
  have hl : l = pySortDesc (collectedCore feeds isRegion scope query daysBack maxItems now entries) :=
    (Except.ok.inj hf).symm
  have hperm : List.Perm
      (l.map contentFingerprint)
      ((collectedCore feeds isRegion scope query daysBack maxItems now entries).map
        contentFingerprint) := by
    rw [hl]
    exact (pySortDesc_perm _).map contentFingerprint
  exact hperm.nodup_iff.mpr
    (collected_fingerprint_nodup feeds isRegion scope url query daysBack maxItems now entries hu)

theorem title_pub_count_le_one (l : List NewsItem) (t : String) (p : Int)
    (hnd : (l.map contentFingerprint).Nodup) :
    (l.filter (fun x => x.title == t && x.published == p)).length ≤ 1 := by
  have himp : ∀ x ∈ l, (x.title == t && x.published == p) = true →
      (contentFingerprint x == t ++ toString p) = true := by
    intro x _ hx
    simp only [Bool.and_eq_true, beq_iff_eq] at hx
    simp [contentFingerprint, hx.1, hx.2]
  calc (l.filter (fun x => x.title == t && x.published == p)).length
      = l.countP (fun x => x.title == t && x.published == p) :=
        (List.countP_eq_length_filter _ _).symm
    _ ≤ l.countP (fun x => contentFingerprint x == t ++ toString p) :=
        List.countP_mono_left himp
    _ = (l.filter (fun x => contentFingerprint x == t ++ toString p)).length :=
        List.countP_eq_length_filter _ _
    _ ≤ 1 := filter_beq_length_le_one contentFingerprint l hnd (t ++ toString p)

/-- C5: within one Ingestor call the dedup fingerprint is the concatenation
of the title and the rendered publish date, so the returned list carries
pairwise distinct fingerprints; at most one returned item can have any
given (title, publishedAt) pair, and each returned item is the unique
carrier of its fingerprint.  The seen-set starts empty on every call (the
processing is a pure function of the call's own inputs). -/
theorem dedup_collapse (region url cat curl query : String) (daysBack : Int)
    (maxItems : Nat) (now : Int) (entries₁ entries₂ : List RssEntry)
    (l₁ l₂ : List NewsItem) (item₁ item₂ : NewsItem) (t₁ t₂ : String) (p₁ p₂ : Int)
    (hu : lookupFeed tribuneRegionFeeds region = some url)
    (hf₁ : fetch_tribune_news region query daysBack maxItems now (.ok entries₁) = .ok l₁)
    (hm₁ : item₁ ∈ l₁)
    (hc : lookupFeed categoryFeeds cat = some curl)
    (hf₂ : fetch_news_by_category cat query daysBack maxItems now (.ok entries₂) = .ok l₂)
    (hm₂ : item₂ ∈ l₂) :
    ((l₁.map contentFingerprint).Nodup ∧
     (l₁.filter (fun x => x.title == t₁ && x.published == p₁)).length ≤ 1 ∧
     (l₁.filter (fun y => contentFingerprint y == contentFingerprint item₁)).length = 1) ∧
    ((l₂.map contentFingerprint).Nodup ∧
     (l₂.filter (fun x => x.title == t₂ && x.published == p₂)).length ≤ 1 ∧
     (l₂.filter (fun y => contentFingerprint y == contentFingerprint item₂)).length = 1) := by
  have hnd₁ := fetch_fingerprint_nodup tribuneRegionFeeds true region url query
    daysBack maxItems now entries₁ l₁ hu hf₁
  have hnd₂ := fetch_fingerprint_nodup categoryFeeds false cat curl query
    daysBack maxItems now entries₂ l₂ hc hf₂
  exact ⟨⟨hnd₁, title_pub_count_le_one l₁ t₁ p₁ hnd₁,
          filter_fp_length_eq_one contentFingerprint l₁ hnd₁ item₁ hm₁⟩,
         ⟨hnd₂, title_pub_count_le_one l₂ t₂ p₂ hnd₂,
          filter_fp_length_eq_one contentFingerprint l₂ hnd₂ item₂ hm₂⟩⟩

/-- C1 witness: a concrete two-entry feed for the Sindh region and the
Sports category, sorted descending with stable filtered slices. -/
theorem ingestor_sorted_stable_witness :
    (([(⟨"a", "la", "", 9, "", "", "", some "Sindh",
          "https://tribune.com.pk/feed/sindh", 0⟩ : NewsItem),
       ⟨"b", "lb", "", 5, "", "", "", some "Sindh",
          "https://tribune.com.pk/feed/sindh", 0⟩] : List NewsItem).Pairwise
        (fun a b => b.published ≤ a.published) ∧
     ([(⟨"a", "la", "", 9, "", "", "", some "Sindh",
          "https://tribune.com.pk/feed/sindh", 0⟩ : NewsItem),
       ⟨"b", "lb", "", 5, "", "", "", some "Sindh",
          "https://tribune.com.pk/feed/sindh", 0⟩] : List NewsItem).filter
         (fun x => x.published == 9)
       = (collectedCore tribuneRegionFeeds true "Sindh" "" 7 10 0
           [⟨"b", "lb", "", some 5, "", "", none⟩,
            ⟨"a", "la", "", some 9, "", "", none⟩]).filter
         (fun x => x.published == 9)) ∧
    (([(⟨"a", "la", "", 9, "", "", "Sports", none,
          "https://tribune.com.pk/feed/sports", 0⟩ : NewsItem),
       ⟨"b", "lb", "", 5, "", "", "Sports", none,
          "https://tribune.com.pk/feed/sports", 0⟩] : List NewsItem).Pairwise
        (fun a b => b.published ≤ a.published) ∧
     ([(⟨"a", "la", "", 9, "", "", "Sports", none,
          "https://tribune.com.pk/feed/sports", 0⟩ : NewsItem),
       ⟨"b", "lb", "", 5, "", "", "Sports", none,
          "https://tribune.com.pk/feed/sports", 0⟩] : List NewsItem).filter
         (fun x => x.published == 5)
       = (collectedCore categoryFeeds false "Sports" "" 7 10 0
           [⟨"b", "lb", "", some 5, "", "", none⟩,
            ⟨"a", "la", "", some 9, "", "", none⟩]).filter
         (fun x => x.published == 5)) :=
  ingestor_sorted_stable "Sindh" "https://tribune.com.pk/feed/sindh"
    "Sports" "https://tribune.com.pk/feed/sports" "" 7 10 0
    [⟨"b", "lb", "", some 5, "", "", none⟩, ⟨"a", "la", "", some 9, "", "", none⟩]
    [⟨"b", "lb", "", some 5, "", "", none⟩, ⟨"a", "la", "", some 9, "", "", none⟩]
    [⟨"a", "la", "", 9, "", "", "", some "Sindh", "https://tribune.com.pk/feed/sindh", 0⟩,
     ⟨"b", "lb", "", 5, "", "", "", some "Sindh", "https://tribune.com.pk/feed/sindh", 0⟩]
    [⟨"a", "la", "", 9, "", "", "Sports", none, "https://tribune.com.pk/feed/sports", 0⟩,
     ⟨"b", "lb", "", 5, "", "", "Sports", none, "https://tribune.com.pk/feed/sports", 0⟩]
    9 5 (by decide)
    (by
      have hne : ¬ ("a" ++ toString (9 : Int) = "b" ++ toString (5 : Int)) := by decide
      simp [fetch_tribune_news, fetchCore, lookupFeed, tribuneRegionFeeds, List.find?,
        collectedCore, queryNorm, fetchLoop, resolvePubDate, mkNewsItem, contentFingerprint,
        pySortDesc, List.mergeSort, List.splitInTwo, List.splitAt, List.splitAt.go,
        List.merge, hne])
    (by decide)
    (by
      have hne : ¬ ("a" ++ toString (9 : Int) = "b" ++ toString (5 : Int)) := by decide
      simp [fetch_news_by_category, fetchCore, lookupFeed, categoryFeeds, List.find?,
        collectedCore, queryNorm, fetchLoop, resolvePubDate, mkNewsItem, contentFingerprint,
        pySortDesc, List.mergeSort, List.splitInTwo, List.splitAt, List.splitAt.go,
        List.merge, hne])

/-- C4 witness: a concrete run in which both returned items respect the
seven-day cutoff and a candidate with a missing publish date resolves to
the current wall clock. -/
theorem recency_cutoff_witness :
    (0 : Int) - 7 * 86400 ≤ (⟨"a", "la", "", 9, "", "", "", some "Sindh",
        "https://tribune.com.pk/feed/sindh", 0⟩ : NewsItem).published ∧
    (0 : Int) - 7 * 86400 ≤ (⟨"a", "la", "", 9, "", "", "Sports", none,
        "https://tribune.com.pk/feed/sports", 0⟩ : NewsItem).published ∧
    resolvePubDate 0 ⟨"c", "lc", "", none, "", "", none⟩ = 0 ∧
    ¬ resolvePubDate 0 ⟨"c", "lc", "", none, "", "", none⟩ < (0 : Int) - 7 * 86400 :=
  recency_cutoff "Sindh" "https://tribune.com.pk/feed/sindh"
    "Sports" "https://tribune.com.pk/feed/sports" "" 7 10 0
    [⟨"b", "lb", "", some 5, "", "", none⟩, ⟨"a", "la", "", some 9, "", "", none⟩]
    [⟨"b", "lb", "", some 5, "", "", none⟩, ⟨"a", "la", "", some 9, "", "", none⟩]
    [⟨"a", "la", "", 9, "", "", "", some "Sindh", "https://tribune.com.pk/feed/sindh", 0⟩,
     ⟨"b", "lb", "", 5, "", "", "", some "Sindh", "https://tribune.com.pk/feed/sindh", 0⟩]
    [⟨"a", "la", "", 9, "", "", "Sports", none, "https://tribune.com.pk/feed/sports", 0⟩,
     ⟨"b", "lb", "", 5, "", "", "Sports", none, "https://tribune.com.pk/feed/sports", 0⟩]
    (⟨"a", "la", "", 9, "", "", "", some "Sindh", "https://tribune.com.pk/feed/sindh", 0⟩)
    (⟨"a", "la", "", 9, "", "", "Sports", none, "https://tribune.com.pk/feed/sports", 0⟩)
    (⟨"c", "lc", "", none, "", "", none⟩)
    (by decide) (by decide)
    (by
      have hne : ¬ ("a" ++ toString (9 : Int) = "b" ++ toString (5 : Int)) := by decide
      simp [fetch_tribune_news, fetchCore, lookupFeed, tribuneRegionFeeds, List.find?,
        collectedCore, queryNorm, fetchLoop, resolvePubDate, mkNewsItem, contentFingerprint,
        pySortDesc, List.mergeSort, List.splitInTwo, List.splitAt, List.splitAt.go,
        List.merge, hne])
    (by decide) (by decide)
    (by
      have hne : ¬ ("a" ++ toString (9 : Int) = "b" ++ toString (5 : Int)) := by decide
      simp [fetch_news_by_category, fetchCore, lookupFeed, categoryFeeds, List.find?,
        collectedCore, queryNorm, fetchLoop, resolvePubDate, mkNewsItem, contentFingerprint,
        pySortDesc, List.mergeSort, List.splitInTwo, List.splitAt, List.splitAt.go,
        List.merge, hne])
    (by decide) rfl

/-- C5 witness: in the concrete run the returned fingerprints are pairwise
distinct, at most one item carries the pair (title a, published 9), and the
first returned item is the unique carrier of its fingerprint. -/
theorem dedup_collapse_witness :
    ((([(⟨"a", "la", "", 9, "", "", "", some "Sindh",
           "https://tribune.com.pk/feed/sindh", 0⟩ : NewsItem),
        ⟨"b", "lb", "", 5, "", "", "", some "Sindh",
           "https://tribune.com.pk/feed/sindh", 0⟩] : List NewsItem).map
        contentFingerprint).Nodup ∧
     (([(⟨"a", "la", "", 9, "", "", "", some "Sindh",
           "https://tribune.com.pk/feed/sindh", 0⟩ : NewsItem),
        ⟨"b", "lb", "", 5, "", "", "", some "Sindh",
           "https://tribune.com.pk/feed/sindh", 0⟩] : List NewsItem).filter
         (fun x => x.title == "a" && x.published == 9)).length ≤ 1 ∧
     (([(⟨"a", "la", "", 9, "", "", "", some "Sindh",
           "https://tribune.com.pk/feed/sindh", 0⟩ : NewsItem),
        ⟨"b", "lb", "", 5, "", "", "", some "Sindh",
           "https://tribune.com.pk/feed/sindh", 0⟩] : List NewsItem).filter
         (fun y => contentFingerprint y == contentFingerprint
           ⟨"a", "la", "", 9, "", "", "", some "Sindh",
             "https://tribune.com.pk/feed/sindh", 0⟩)).length = 1) ∧
    ((([(⟨"a", "la", "", 9, "", "", "Sports", none,
           "https://tribune.com.pk/feed/sports", 0⟩ : NewsItem),
        ⟨"b", "lb", "", 5, "", "", "Sports", none,
           "https://tribune.com.pk/feed/sports", 0⟩] : List NewsItem).map
        contentFingerprint).Nodup ∧
     (([(⟨"a", "la", "", 9, "", "", "Sports", none,
           "https://tribune.com.pk/feed/sports", 0⟩ : NewsItem),
        ⟨"b", "lb", "", 5, "", "", "Sports", none,
           "https://tribune.com.pk/feed/sports", 0⟩] : List NewsItem).filter
         (fun x => x.title == "b" && x.published == 5)).length ≤ 1 ∧
     (([(⟨"a", "la", "", 9, "", "", "Sports", none,
           "https://tribune.com.pk/feed/sports", 0⟩ : NewsItem),
        ⟨"b", "lb", "", 5, "", "", "Sports", none,
           "https://tribune.com.pk/feed/sports", 0⟩] : List NewsItem).filter
         (fun y => contentFingerprint y == contentFingerprint
           ⟨"a", "la", "", 9, "", "", "Sports", none,
             "https://tribune.com.pk/feed/sports", 0⟩)).length = 1) :=
  dedup_collapse "Sindh" "https://tribune.com.pk/feed/sindh"
    "Sports" "https://tribune.com.pk/feed/sports" "" 7 10 0
    [⟨"b", "lb", "", some 5, "", "", none⟩, ⟨"a", "la", "", some 9, "", "", none⟩]
    [⟨"b", "lb", "", some 5, "", "", none⟩, ⟨"a", "la", "", some 9, "", "", none⟩]
    [⟨"a", "la", "", 9, "", "", "", some "Sindh", "https://tribune.com.pk/feed/sindh", 0⟩,
     ⟨"b", "lb", "", 5, "", "", "", some "Sindh", "https://tribune.com.pk/feed/sindh", 0⟩]
    [⟨"a", "la", "", 9, "", "", "Sports", none, "https://tribune.com.pk/feed/sports", 0⟩,
     ⟨"b", "lb", "", 5, "", "", "Sports", none, "https://tribune.com.pk/feed/sports", 0⟩]
    (⟨"a", "la", "", 9, "", "", "", some "Sindh", "https://tribune.com.pk/feed/sindh", 0⟩)
    (⟨"a", "la", "", 9, "", "", "Sports", none, "https://tribune.com.pk/feed/sports", 0⟩)
    "a" "b" 9 5
    (by decide)
    (by
      have hne : ¬ ("a" ++ toString (9 : Int) = "b" ++ toString (5 : Int)) := by decide
      simp [fetch_tribune_news, fetchCore, lookupFeed, tribuneRegionFeeds, List.find?,
        collectedCore, queryNorm, fetchLoop, resolvePubDate, mkNewsItem, contentFingerprint,
        pySortDesc, List.mergeSort, List.splitInTwo, List.splitAt, List.splitAt.go,
        List.merge, hne])
    (by decide)
    (by decide)
    (by
      have hne : ¬ ("a" ++ toString (9 : Int) = "b" ++ toString (5 : Int)) := by decide
      simp [fetch_news_by_category, fetchCore, lookupFeed, categoryFeeds, List.find?,
        collectedCore, queryNorm, fetchLoop, resolvePubDate, mkNewsItem, contentFingerprint,
        pySortDesc, List.mergeSort, List.splitInTwo, List.splitAt, List.splitAt.go,
        List.merge, hne])
    (by decide)

/-! ### String lemmas for query normalisation -/

theorem char_toNat_ofNat {n : Nat} (h : n < 55296) : (Char.ofNat n).toNat = n := by
  have hv : n.isValidChar := Or.inl h
  simp [Char.ofNat, hv, Char.ofNatAux, Char.toNat, UInt32.toNat]

theorem isPyWs_toLower (c : Char) : isPyWs (Char.toLower c) = isPyWs c := by
  unfold Char.toLower
  by_cases h : c.toNat ≥ 65 ∧ c.toNat ≤ 90
  · rw [if_pos h]
    have h32 : (Char.ofNat (c.toNat + 32)).toNat = c.toNat + 32 :=
      char_toNat_ofNat (by omega)
    have h1 : isPyWs c = false := by
      simp only [isPyWs, Bool.or_eq_false_iff, beq_eq_false_iff_ne, ne_eq]
      omega
    have h2 : isPyWs (Char.ofNat (c.toNat + 32)) = false := by
      simp only [isPyWs, Bool.or_eq_false_iff, beq_eq_false_iff_ne, ne_eq, h32]
      omega
    rw [h1, h2]
  · rw [if_neg h]

theorem isPyWs_comp_toLower : isPyWs ∘ Char.toLower = isPyWs :=
  funext isPyWs_toLower

theorem stripList_map_toLower (l : List Char) :
    stripList (l.map Char.toLower) = (stripList l).map Char.toLower := by
  unfold stripList
  rw [List.dropWhile_map, isPyWs_comp_toLower, ← List.map_reverse, List.dropWhile_map,
    isPyWs_comp_toLower, ← List.map_reverse]

theorem dropWhile_dropWhile {α : Type} (p : α → Bool) :
    ∀ l : List α, (l.dropWhile p).dropWhile p = l.dropWhile p := by
  intro l
  induction l with
  | nil => rfl
  | cons a t ih =>
    by_cases hp : p a
    · rw [List.dropWhile_cons_of_pos hp]
      exact ih
    · rw [List.dropWhile_cons_of_neg hp, List.dropWhile_cons_of_neg hp]

theorem dropWhile_head_false {α : Type} (p : α → Bool) :
    ∀ (l : List α) (c : α) (t : List α), l.dropWhile p = c :: t → p c = false := by
  intro l
  induction l with
  | nil => intro c t h; simp [List.dropWhile] at h
  | cons a l' ih =>
    intro c t h
    by_cases hp : p a
    · rw [List.dropWhile_cons_of_pos hp] at h
      exact ih c t h
    · rw [List.dropWhile_cons_of_neg hp] at h
      injection h with h1 _
      rw [← h1]
      simpa using hp

theorem dropWhile_eq_self_of_prepend {α : Type} (p : α → Bool) (l x y : List α)
    (h : x ++ y = l.dropWhile p) : x.dropWhile p = x := by
  cases x with
  | nil => rfl
  | cons c x' =>
    have hc : p c = false :=
      dropWhile_head_false p l c (x' ++ y) (by rw [← h]; rfl)
    exact List.dropWhile_cons_of_neg (by simp [hc])

theorem exists_prepend_dropWhile {α : Type} (p : α → Bool) :
    ∀ l : List α, ∃ t, t ++ l.dropWhile p = l := by
  intro l
  induction l with
  | nil => exact ⟨[], rfl⟩
  | cons a l' ih =>
    by_cases hp : p a
    · obtain ⟨t, ht⟩ := ih
      refine ⟨a :: t, ?_⟩
      rw [List.dropWhile_cons_of_pos hp]
      simpa using congrArg (a :: ·) ht
    · refine ⟨[], ?_⟩
      rw [List.dropWhile_cons_of_neg hp]
      rfl

theorem stripList_idem (l : List Char) : stripList (stripList l) = stripList l := by
  have hrev : (stripList l).reverse = (l.dropWhile isPyWs).reverse.dropWhile isPyWs := by
    unfold stripList
    rw [List.reverse_reverse]
  have hpre : ∃ y, stripList l ++ y = l.dropWhile isPyWs := by
    obtain ⟨t, ht⟩ := exists_prepend_dropWhile isPyWs (l.dropWhile isPyWs).reverse
    have ht' : t ++ (stripList l).reverse = (l.dropWhile isPyWs).reverse := by
      rw [hrev]
      exact ht
    refine ⟨t.reverse, ?_⟩
    have hr := congrArg List.reverse ht'
    simpa [List.reverse_append] using hr
  obtain ⟨y, hy⟩ := hpre
  have hA : (stripList l).dropWhile isPyWs = stripList l :=
    dropWhile_eq_self_of_prepend isPyWs l (stripList l) y hy
  show ((((stripList l).dropWhile isPyWs).reverse.dropWhile isPyWs)).reverse = stripList l
  rw [hA, hrev, dropWhile_dropWhile, ← hrev, List.reverse_reverse]

theorem queryNorm_strip (q : String) : queryNorm (pyStrip q) = queryNorm q := by
  have hdata : ∀ s : String, (pyStrip s).data = stripList s.data := fun _ => rfl
  have hldata : ∀ s : String, (pyLower s).data = s.data.map Char.toLower := fun _ => rfl
  have hmk : ∀ s : String, s = ⟨s.data⟩ := fun _ => rfl
  by_cases h0 : q = ""
  · subst h0
    have h1 : pyStrip "" = "" := by decide
    rw [h1]
  · by_cases h1 : pyStrip q = ""
    · have hnil : stripList q.data = [] := congrArg String.data h1
      have hz : pyStrip (pyLower q) = "" := by
        have hd : (pyStrip (pyLower q)).data = [] := by
          rw [hdata, hldata, stripList_map_toLower, hnil]
          rfl
        rw [hmk (pyStrip (pyLower q)), hd]
      rw [h1]
      have he : queryNorm "" = "" := rfl
      rw [he, queryNorm, if_neg h0]
      exact hz.symm
    · rw [queryNorm, if_neg h1, queryNorm, if_neg h0]
      have hd : (pyStrip (pyLower (pyStrip q))).data = (pyStrip (pyLower q)).data := by
        simp only [hdata, hldata, stripList_map_toLower, stripList_idem]
      rw [hmk (pyStrip (pyLower (pyStrip q))), hd]

theorem fetchCore_strip (feeds : List (String × String)) (isRegion : Bool)
    (scope query : String) (daysBack : Int) (maxItems : Nat) (now : Int)
    (outcome : HttpOutcome) :
    fetchCore feeds isRegion scope (pyStrip query) daysBack maxItems now outcome
      = fetchCore feeds isRegion scope query daysBack maxItems now outcome := by
  simp only [fetchCore, collectedCore, queryNorm_strip]

/-! ### Claim C10: whitespace handling of the query -/

/-- C10: stripping leading and trailing whitespace from the query never
changes an Ingestor result (the normalised needle is the stripped,
lowercased query), and in particular a query consisting only of whitespace
behaves exactly like the empty query, for both entry points. -/
theorem whitespace_query (region cat query : String) (daysBack : Int)
    (maxItems : Nat) (now : Int) (outcome : HttpOutcome) :
    fetch_tribune_news region query daysBack maxItems now outcome
      = fetch_tribune_news region (pyStrip query) daysBack maxItems now outcome ∧
    fetch_news_by_category cat query daysBack maxItems now outcome
      = fetch_news_by_category cat (pyStrip query) daysBack maxItems now outcome ∧
    (pyStrip query = "" →
      fetch_tribune_news region query daysBack maxItems now outcome
        = fetch_tribune_news region "" daysBack maxItems now outcome ∧
      fetch_news_by_category cat query daysBack maxItems now outcome
        = fetch_news_by_category cat "" daysBack maxItems now outcome) := by
  refine ⟨(fetchCore_strip _ _ _ _ _ _ _ _).symm,
          (fetchCore_strip _ _ _ _ _ _ _ _).symm, fun hws => ⟨?_, ?_⟩⟩
  · rw [fetch_tribune_news, ← fetchCore_strip, hws]
    rfl
  · rw [fetch_news_by_category, ← fetchCore_strip, hws]
    rfl

/-- C10 witness: a two-space query behaves exactly like the empty query on
both entry points. -/
theorem whitespace_query_witness :
    pyStrip "  " = "" ∧
    fetch_tribune_news "Sindh" "  " 7 10 0 (.ok []) = fetch_tribune_news "Sindh" "" 7 10 0 (.ok []) ∧
    fetch_news_by_category "Sports" "  " 7 10 0 (.ok []) = fetch_news_by_category "Sports" "" 7 10 0 (.ok []) :=
  ⟨by decide,
   ((whitespace_query "Sindh" "Sports" "  " 7 10 0 (.ok [])).2.2 (by decide)).1,
   ((whitespace_query "Sindh" "Sports" "  " 7 10 0 (.ok [])).2.2 (by decide)).2⟩
